import Mathlib

/-!
Shallow embedding of `lib/streamlit/errors.py` (Streamlit's error taxonomy and
localizable message formatter) and proofs about it.

The translation catalog (`gettext.gettext`) is process-wide external state per
the module's design; it is modelled as an explicit parameter
`catalog : String → String`, with `id` standing for the default null catalog
(gettext echoes the message id back when no translation is installed).
-/

set_option autoImplicit false
set_option linter.unusedVariables false
set_option maxRecDepth 8000

namespace StreamlitErrors

/-- Python runtime values that appear as constructor arguments / substitution
arguments in this module: integers, strings and `None`. -/
inductive PyVal where
  | int (n : Int)
  | str (s : String)
  | none
  deriving DecidableEq

/-- Python truthiness (`if value:`) for the values modelled by `PyVal`. -/
def PyVal.truthy : PyVal → Bool
  | .int n => n != 0
  | .str s => s != ""
  | .none => false

/-- Python `type(v).__name__` for the values modelled by `PyVal`. -/
def PyVal.typeName : PyVal → String
  | .int _ => "int"
  | .str _ => "str"
  | .none => "NoneType"

/-- Python `str(v)` for the values modelled by `PyVal`, as used by `str.format`
substitution and by f-strings. -/
def PyVal.toStr : PyVal → String
  | .int n => toString n
  | .str s => s
  | .none => "None"

/-- First-match association-list lookup, modelling a lookup in the keyword
argument dict passed to `str.format`. -/
def lookupAssoc (l : List (String × String)) (k : String) : Option String :=
  match l with
  | [] => Option.none
  | (a, v) :: rest => if a = k then some v else lookupAssoc rest k

/-- State of the `str.format` scanner: either scanning literal text, or inside
a replacement field accumulating the field name. -/
inductive FmtState where
  | scan
  | field (acc : String)

/-- Core of Python `str.format(**kwargs)` restricted to the simple named
replacement fields used in this module: `{{` and `}}` are escapes, `{name}` is
replaced by the named argument, a field naming a missing argument raises
`KeyError` (modelled as `Option.none`), and a stray `{` or `}` raises
`ValueError` (also `Option.none`). The `Nat` argument is structural-recursion
fuel; every step consumes at least one character, so starting the scan with
fuel `length + 1` (as `pyFormat` does) never exhausts it. -/
def pyFmtGo (lookup : List (String × String)) : Nat → FmtState → List Char → Option String
  | 0, _, _ => Option.none
  | Nat.succ _, .scan, [] => some ("")
  | Nat.succ fuel, .scan, c :: rest =>
      if c = '{' then
        match rest with
        | [] => Option.none
        | c2 :: rest2 =>
            if c2 = '{' then (pyFmtGo lookup fuel .scan rest2).map (fun s => "\x7b" ++ s)
            else pyFmtGo lookup fuel (.field ("")) (c2 :: rest2)
      else if c = '}' then
        match rest with
        | [] => Option.none
        | c2 :: rest2 =>
            if c2 = '}' then (pyFmtGo lookup fuel .scan rest2).map (fun s => "\x7d" ++ s)
            else Option.none
      else (pyFmtGo lookup fuel .scan rest).map (fun s => String.singleton c ++ s)
  | Nat.succ _, .field _, [] => Option.none
  | Nat.succ fuel, .field acc, c :: rest =>
      if c = '}' then
        match lookupAssoc lookup acc with
        | some v => (pyFmtGo lookup fuel .scan rest).map (fun s => v ++ s)
        | Option.none => Option.none
      else pyFmtGo lookup fuel (.field (acc.push c)) rest

/-- The replacement-field names referenced by a template, mirroring the scanner
of `pyFmtGo` case for case (same fuel discipline). -/
def pyRefsGo : Nat → FmtState → List Char → List String
  | 0, _, _ => []
  | Nat.succ _, .scan, [] => []
  | Nat.succ fuel, .scan, c :: rest =>
      if c = '{' then
        match rest with
        | [] => []
        | c2 :: rest2 =>
            if c2 = '{' then pyRefsGo fuel .scan rest2
            else pyRefsGo fuel (.field ("")) (c2 :: rest2)
      else if c = '}' then
        match rest with
        | [] => []
        | c2 :: rest2 =>
            if c2 = '}' then pyRefsGo fuel .scan rest2
            else []
      else pyRefsGo fuel .scan rest
  | Nat.succ _, .field _, [] => []
  | Nat.succ fuel, .field acc, c :: rest =>
      if c = '}' then acc :: pyRefsGo fuel .scan rest
      else pyRefsGo fuel (.field (acc.push c)) rest

/-- Python `template.format(**kwargs)` (simple named fields only). -/
def pyFormat (template : String) (lookup : List (String × String)) : Option String :=
  pyFmtGo lookup (template.data.length + 1) .scan template.data

/-- The field names a template references. -/
def templateRefs (template : String) : List String :=
  pyRefsGo (template.data.length + 1) .scan template.data

/-- Rendering of the keyword-argument dict into the string mapping consumed by
`str.format` (each value rendered by Python `str`). -/
def renderKwargs (kwargs : List (String × PyVal)) : List (String × String) :=
  kwargs.map (fun p => (p.1, p.2.toStr))

/-- Python `os.path.basename` (posix): the characters after the last `/`. -/
def osPathBasename (p : String) : String :=
  String.mk (p.data.foldl (fun acc c => if c = '/' then [] else acc ++ [c]) [])

/-- A constructed `LocalizableStreamlitException` instance: the rendered
message (the argument passed to `super().__init__`) and the stored
`_exec_kwargs`, read back through the `exec_kwargs` property. -/
structure LocalizableStreamlitException where
  message : String
  exec_kwargs : List (String × PyVal)
  deriving DecidableEq

/-- `LocalizableStreamlitException.__init__`: look the concrete class name up
in the catalog; if the catalog echoes the name back there is no translation
and the constructor's literal `message` is used; format the chosen template
with the keyword arguments (`Option.none` when formatting raises); store the
keyword arguments on the instance. -/
def LocalizableStreamlitException.init (catalog : String → String)
    (exception_name message : String) (kwargs : List (String × PyVal)) :
    Option LocalizableStreamlitException :=
  let exception_message := catalog exception_name
  let exception_message := if exception_message = exception_name then message
    else exception_message
  (pyFormat exception_message (renderKwargs kwargs)).map
    (fun m => { message := m, exec_kwargs := kwargs })

/-- The classes defined in `errors.py`, together with the Python built-in
bases they inherit from (`Exception`, `KeyError`, `Warning`). -/
inductive PyClass where
  | PyException
  | PyKeyError
  | PyWarning
  | Error
  | CustomComponentError
  | DeprecationError
  | FragmentStorageKeyError
  | FragmentHandledException
  | NoStaticFiles
  | NoSessionContext
  | MarkdownFormattedException
  | UncaughtAppException
  | StreamlitAPIException
  | DuplicateWidgetID
  | UnserializableSessionStateError
  | StreamlitAPIWarning
  | StreamlitModuleNotFoundError
  | LocalizableStreamlitException
  | StreamlitNumberInputDifferentTypesError
  | StreamlitNumberInputInvalidMinValueError
  | StreamlitNumberInputInvalidMaxValueError
  | StreamlitJSNumberBoundsError
  | StreamlitNumberInputInvalidFormatError
  | StreamlitMissingPageLabelError
  | StreamlitPageNotFoundError
  | StreamlitPageNotFoundMPAV2Error
  | StreamlitFragmentWidgetsNotAllowedOutsideError
  | StreamlitInvalidFormCallbackError
  | StreamlitWidgetValueAssignmentNotAllowedError
  | StreamlitSelectionCountExceedsMaxError
  | StreamlitInvalidColumnSpecError
  | StreamlitSetPageConfigMustBeFirstCommandError
  | StreamlitInvalidLayoutError
  | StreamlitInvalidSidebarStateError
  | StreamlitInvalidMenuItemKeyError
  | StreamlitInvalidURLError
  deriving DecidableEq

/-- Direct base classes, as written in the `class C(B1, B2):` headers of
`errors.py` (built-ins collapsed to the modelled roots). -/
def bases : PyClass → List PyClass
  | .PyException => []
  | .PyKeyError => [.PyException]
  | .PyWarning => [.PyException]
  | .Error => [.PyException]
  | .CustomComponentError => [.Error]
  | .DeprecationError => [.Error]
  | .FragmentStorageKeyError => [.Error, .PyKeyError]
  | .FragmentHandledException => [.PyException]
  | .NoStaticFiles => [.Error]
  | .NoSessionContext => [.Error]
  | .MarkdownFormattedException => [.Error]
  | .UncaughtAppException => [.Error]
  | .StreamlitAPIException => [.MarkdownFormattedException]
  | .DuplicateWidgetID => [.StreamlitAPIException]
  | .UnserializableSessionStateError => [.StreamlitAPIException]
  | .StreamlitAPIWarning => [.StreamlitAPIException, .PyWarning]
  | .StreamlitModuleNotFoundError => [.StreamlitAPIWarning]
  | .LocalizableStreamlitException => [.StreamlitAPIException]
  | .StreamlitNumberInputDifferentTypesError => [.LocalizableStreamlitException]
  | .StreamlitNumberInputInvalidMinValueError => [.LocalizableStreamlitException]
  | .StreamlitNumberInputInvalidMaxValueError => [.LocalizableStreamlitException]
  | .StreamlitJSNumberBoundsError => [.LocalizableStreamlitException]
  | .StreamlitNumberInputInvalidFormatError => [.LocalizableStreamlitException]
  | .StreamlitMissingPageLabelError => [.LocalizableStreamlitException]
  | .StreamlitPageNotFoundError => [.LocalizableStreamlitException]
  | .StreamlitPageNotFoundMPAV2Error => [.LocalizableStreamlitException]
  | .StreamlitFragmentWidgetsNotAllowedOutsideError => [.LocalizableStreamlitException]
  | .StreamlitInvalidFormCallbackError => [.LocalizableStreamlitException]
  | .StreamlitWidgetValueAssignmentNotAllowedError => [.LocalizableStreamlitException]
  | .StreamlitSelectionCountExceedsMaxError => [.LocalizableStreamlitException]
  | .StreamlitInvalidColumnSpecError => [.LocalizableStreamlitException]
  | .StreamlitSetPageConfigMustBeFirstCommandError => [.LocalizableStreamlitException]
  | .StreamlitInvalidLayoutError => [.LocalizableStreamlitException]
  | .StreamlitInvalidSidebarStateError => [.LocalizableStreamlitException]
  | .StreamlitInvalidMenuItemKeyError => [.LocalizableStreamlitException]
  | .StreamlitInvalidURLError => [.LocalizableStreamlitException]

/-- Python `cls.__name__`. -/
def className : PyClass → String
  | .PyException => "Exception"
  | .PyKeyError => "KeyError"
  | .PyWarning => "Warning"
  | .Error => "Error"
  | .CustomComponentError => "CustomComponentError"
  | .DeprecationError => "DeprecationError"
  | .FragmentStorageKeyError => "FragmentStorageKeyError"
  | .FragmentHandledException => "FragmentHandledException"
  | .NoStaticFiles => "NoStaticFiles"
  | .NoSessionContext => "NoSessionContext"
  | .MarkdownFormattedException => "MarkdownFormattedException"
  | .UncaughtAppException => "UncaughtAppException"
  | .StreamlitAPIException => "StreamlitAPIException"
  | .DuplicateWidgetID => "DuplicateWidgetID"
  | .UnserializableSessionStateError => "UnserializableSessionStateError"
  | .StreamlitAPIWarning => "StreamlitAPIWarning"
  | .StreamlitModuleNotFoundError => "StreamlitModuleNotFoundError"
  | .LocalizableStreamlitException => "LocalizableStreamlitException"
  | .StreamlitNumberInputDifferentTypesError => "StreamlitNumberInputDifferentTypesError"
  | .StreamlitNumberInputInvalidMinValueError => "StreamlitNumberInputInvalidMinValueError"
  | .StreamlitNumberInputInvalidMaxValueError => "StreamlitNumberInputInvalidMaxValueError"
  | .StreamlitJSNumberBoundsError => "StreamlitJSNumberBoundsError"
  | .StreamlitNumberInputInvalidFormatError => "StreamlitNumberInputInvalidFormatError"
  | .StreamlitMissingPageLabelError => "StreamlitMissingPageLabelError"
  | .StreamlitPageNotFoundError => "StreamlitPageNotFoundError"
  | .StreamlitPageNotFoundMPAV2Error => "StreamlitPageNotFoundMPAV2Error"
  | .StreamlitFragmentWidgetsNotAllowedOutsideError => "StreamlitFragmentWidgetsNotAllowedOutsideError"
  | .StreamlitInvalidFormCallbackError => "StreamlitInvalidFormCallbackError"
  | .StreamlitWidgetValueAssignmentNotAllowedError => "StreamlitWidgetValueAssignmentNotAllowedError"
  | .StreamlitSelectionCountExceedsMaxError => "StreamlitSelectionCountExceedsMaxError"
  | .StreamlitInvalidColumnSpecError => "StreamlitInvalidColumnSpecError"
  | .StreamlitSetPageConfigMustBeFirstCommandError => "StreamlitSetPageConfigMustBeFirstCommandError"
  | .StreamlitInvalidLayoutError => "StreamlitInvalidLayoutError"
  | .StreamlitInvalidSidebarStateError => "StreamlitInvalidSidebarStateError"
  | .StreamlitInvalidMenuItemKeyError => "StreamlitInvalidMenuItemKeyError"
  | .StreamlitInvalidURLError => "StreamlitInvalidURLError"

/-- Fuel-bounded reachability in the `bases` graph; fuel 8 exceeds the depth
of the hierarchy. -/
def isSubclassAux : Nat → PyClass → PyClass → Bool
  | 0, _, _ => false
  | Nat.succ n, c, d => c = d || (bases c).any (fun b => isSubclassAux n b d)

/-- Python `issubclass`: reflexive-transitive reachability through `__bases__`. -/
def isSubclass (c d : PyClass) : Bool :=
  isSubclassAux 8 c d

/-- The concrete leaf subclasses of `LocalizableStreamlitException` defined in
`errors.py`. -/
def localizableLeaves : List PyClass :=
  [.StreamlitNumberInputDifferentTypesError,
   .StreamlitNumberInputInvalidMinValueError,
   .StreamlitNumberInputInvalidMaxValueError,
   .StreamlitJSNumberBoundsError,
   .StreamlitNumberInputInvalidFormatError,
   .StreamlitMissingPageLabelError,
   .StreamlitPageNotFoundError,
   .StreamlitPageNotFoundMPAV2Error,
   .StreamlitFragmentWidgetsNotAllowedOutsideError,
   .StreamlitInvalidFormCallbackError,
   .StreamlitWidgetValueAssignmentNotAllowedError,
   .StreamlitSelectionCountExceedsMaxError,
   .StreamlitInvalidColumnSpecError,
   .StreamlitSetPageConfigMustBeFirstCommandError,
   .StreamlitInvalidLayoutError,
   .StreamlitInvalidSidebarStateError,
   .StreamlitInvalidMenuItemKeyError,
   .StreamlitInvalidURLError]

/-- `StreamlitNumberInputDifferentTypesError.__init__`: builds the message by
appending one line per argument whose value is truthy (note: Python `if value:`
skips a numeric argument equal to zero), then delegates to the localizable
base constructor with no substitution arguments. -/
def StreamlitNumberInputDifferentTypesError.init (catalog : String → String)
    (value min_value max_value step : PyVal) : Option LocalizableStreamlitException :=
  let error_message := "All numerical arguments must be of the same type."
  let error_message := if value.truthy then
    error_message ++ "\n`value` has " ++ value.typeName ++ " type." else error_message
  let error_message := if min_value.truthy then
    error_message ++ "\n`min_value` has " ++ min_value.typeName ++ " type." else error_message
  let error_message := if max_value.truthy then
    error_message ++ "\n`max_value` has " ++ max_value.typeName ++ " type." else error_message
  let error_message := if step.truthy then
    error_message ++ "\n`step` has " ++ step.typeName ++ " type." else error_message
  LocalizableStreamlitException.init catalog
    (className .StreamlitNumberInputDifferentTypesError) error_message []

/-- `StreamlitNumberInputInvalidMinValueError.__init__`. -/
def StreamlitNumberInputInvalidMinValueError.init (catalog : String → String)
    (value max_value : PyVal) : Option LocalizableStreamlitException :=
  LocalizableStreamlitException.init catalog
    (className .StreamlitNumberInputInvalidMinValueError)
    ("The `value` {value} is greater than the `max_value` {max_value}.")
    [("value", value), ("max_value", max_value)]

/-- `StreamlitNumberInputInvalidMaxValueError.__init__` (`max_value` is
accepted but not substituted, matching the source). -/
def StreamlitNumberInputInvalidMaxValueError.init (catalog : String → String)
    (value min_value max_value : PyVal) : Option LocalizableStreamlitException :=
  LocalizableStreamlitException.init catalog
    (className .StreamlitNumberInputInvalidMaxValueError)
    ("The `value` {value} is less than the `min_value` {min_value}.")
    [("value", value), ("min_value", min_value)]

/-- `StreamlitJSNumberBoundsError.__init__`: the template is the message
supplied by the raising caller. -/
def StreamlitJSNumberBoundsError.init (catalog : String → String)
    (message : String) : Option LocalizableStreamlitException :=
  LocalizableStreamlitException.init catalog
    (className .StreamlitJSNumberBoundsError) message []

/-- `StreamlitNumberInputInvalidFormatError.__init__`. -/
def StreamlitNumberInputInvalidFormatError.init (catalog : String → String)
    (format : String) : Option LocalizableStreamlitException :=
  LocalizableStreamlitException.init catalog
    (className .StreamlitNumberInputInvalidFormatError)
    ("Format string for st.number_input contains invalid characters: " ++ format) []

/-- `StreamlitMissingPageLabelError.__init__`. -/
def StreamlitMissingPageLabelError.init (catalog : String → String) :
    Option LocalizableStreamlitException :=
  LocalizableStreamlitException.init catalog
    (className .StreamlitMissingPageLabelError)
    ("The `label` param is required for external links used with `st.page_link` - please provide a `label`.")
    []

/-- `StreamlitPageNotFoundError.__init__`. -/
def StreamlitPageNotFoundError.init (catalog : String → String)
    (page main_script_directory : String) : Option LocalizableStreamlitException :=
  LocalizableStreamlitException.init catalog
    (className .StreamlitPageNotFoundError)
    ("Could not find page: `" ++ page ++ "`. You must provide a file path " ++
      "relative to the entrypoint file (from the directory `" ++
      osPathBasename main_script_directory ++ "`). " ++
      "Only the entrypoint file and files in the `pages/` directory are supported.")
    []

/-- `StreamlitPageNotFoundMPAV2Error.__init__`. -/
def StreamlitPageNotFoundMPAV2Error.init (catalog : String → String)
    (page : String) : Option LocalizableStreamlitException :=
  LocalizableStreamlitException.init catalog
    (className .StreamlitPageNotFoundMPAV2Error)
    ("Could not find page: `" ++ page ++ "`. You must provide a `StreamlitPage` " ++
      "object or file path relative to the entrypoint file. Only pages " ++
      "previously defined by [st.Page](http://st.page/) and passed to " ++
      "`st.navigation` are allowed.")
    []

/-- `StreamlitFragmentWidgetsNotAllowedOutsideError.__init__` (the template's
leading space is in the source). -/
def StreamlitFragmentWidgetsNotAllowedOutsideError.init (catalog : String → String) :
    Option LocalizableStreamlitException :=
  LocalizableStreamlitException.init catalog
    (className .StreamlitFragmentWidgetsNotAllowedOutsideError)
    (" Fragments cannot write widgets to outside containers.") []

/-- `StreamlitInvalidFormCallbackError.__init__`. -/
def StreamlitInvalidFormCallbackError.init (catalog : String → String) :
    Option LocalizableStreamlitException :=
  LocalizableStreamlitException.init catalog
    (className .StreamlitInvalidFormCallbackError)
    ("Within a form, callbacks can only be defined on st.form_submit_button. " ++
      "Defining callbacks on other widgets inside a form is not allowed.")
    []

/-- `StreamlitWidgetValueAssignmentNotAllowedError.__init__`. -/
def StreamlitWidgetValueAssignmentNotAllowedError.init (catalog : String → String)
    (key : String) : Option LocalizableStreamlitException :=
  LocalizableStreamlitException.init catalog
    (className .StreamlitWidgetValueAssignmentNotAllowedError)
    ("Values for the widget with `key` \x27" ++ key ++
      "\x27 cannot be set using `st.session_state`.")
    []

/-- `StreamlitSelectionCountExceedsMaxError.__init__`. -/
def StreamlitSelectionCountExceedsMaxError.init (catalog : String → String)
    (current_selections_count max_selections_count : Int) :
    Option LocalizableStreamlitException :=
  let curr_selections_noun := if current_selections_count = 1 then "selection"
    else "selections"
  let options_noun := if max_selections_count = 1 then "option" else "options"
  LocalizableStreamlitException.init catalog
    (className .StreamlitSelectionCountExceedsMaxError)
    ("Multiselect has " ++ toString current_selections_count ++ " " ++
      curr_selections_noun ++ " " ++
      "selected but `max_selections` is set to " ++
      toString max_selections_count ++ ". " ++
      "This happened because you either gave too many options to `default` " ++
      "or you manipulated the widget\x27s state through `st.session_state`. " ++
      "Note that the latter can happen before the line indicated in the traceback. " ++
      "Please select at most " ++ toString max_selections_count ++ " " ++
      options_noun ++ ".")
    []

/-- `StreamlitInvalidColumnSpecError.__init__`. -/
def StreamlitInvalidColumnSpecError.init (catalog : String → String) :
    Option LocalizableStreamlitException :=
  LocalizableStreamlitException.init catalog
    (className .StreamlitInvalidColumnSpecError)
    ("The spec argument to `st.columns` must be either a " ++
      "positive integer (number of columns) or a list of positive numbers (width ratios of the columns). " ++
      "See [documentation](https://docs.streamlit.io/develop/api-reference/layout/st.columns) " ++
      "for more information.")
    []

/-- `StreamlitSetPageConfigMustBeFirstCommandError.__init__`. -/
def StreamlitSetPageConfigMustBeFirstCommandError.init (catalog : String → String) :
    Option LocalizableStreamlitException :=
  LocalizableStreamlitException.init catalog
    (className .StreamlitSetPageConfigMustBeFirstCommandError)
    ("`set_page_config()` can only be called once per app page, " ++
      "and must be called as the first Streamlit command in your script.\n\n" ++
      "For more information refer to the [docs]" ++
      "(https://docs.streamlit.io/develop/api-reference/configuration/st.set_page_config).")
    []

/-- `StreamlitInvalidLayoutError.__init__`. -/
def StreamlitInvalidLayoutError.init (catalog : String → String)
    (layout : String) : Option LocalizableStreamlitException :=
  LocalizableStreamlitException.init catalog
    (className .StreamlitInvalidLayoutError)
    ("layout must be \"centered\" or \"wide\" (got \"" ++ layout ++ "\")") []

/-- `StreamlitInvalidSidebarStateError.__init__`. -/
def StreamlitInvalidSidebarStateError.init (catalog : String → String)
    (initial_sidebar_state : String) : Option LocalizableStreamlitException :=
  LocalizableStreamlitException.init catalog
    (className .StreamlitInvalidSidebarStateError)
    ("initial_sidebar_state must be \"auto\" or \"expanded\" or \"collapsed\" (got \"" ++
      initial_sidebar_state ++ "\")")
    []

/-- `StreamlitInvalidMenuItemKeyError.__init__`. -/
def StreamlitInvalidMenuItemKeyError.init (catalog : String → String)
    (key : String) : Option LocalizableStreamlitException :=
  LocalizableStreamlitException.init catalog
    (className .StreamlitInvalidMenuItemKeyError)
    ("We only accept the keys: \"Get help\", \"Report a bug\", and \"About\" (\"" ++
      key ++ "\" is not a valid key.)")
    []

/-- `StreamlitInvalidURLError.__init__`. -/
def StreamlitInvalidURLError.init (catalog : String → String)
    (url : String) : Option LocalizableStreamlitException :=
  LocalizableStreamlitException.init catalog
    (className .StreamlitInvalidURLError)
    ("\"" ++ url ++ "\" is a not a valid URL. " ++
      "You must use a fully qualified domain beginning with `http://`, `https://`, or `mailto:`.")
    []

/-- A string whose character list starts with some character is not empty. -/
theorem ne_empty_of_data_head {s : String} {c : Char} (h : s.data.head? = some c) :
    s ≠ "" := by
  intro he
  subst he
  simp at h

/-- A single-character string is not empty. -/
theorem singleton_ne_empty (c : Char) : String.singleton c ≠ "" := by
  intro he
  have hd : ([c] : List Char) = [] := congrArg String.data he
  simp at hd

/-- Appending to a nonempty string yields a nonempty string. -/
theorem append_ne_empty_left {a : String} (t : String) (ha : a ≠ "") : a ++ t ≠ "" := by
  intro he
  apply ha
  have hd : a.data ++ t.data = ([] : List Char) := congrArg String.data he
  exact String.ext (by simp [(List.append_eq_nil.mp hd).1])

/-- The head character of a string survives appending on the right. -/
theorem data_head?_append {s : String} (t : String) {c : Char}
    (h : s.data.head? = some c) : (s ++ t).data.head? = some c := by
  have hd : (s ++ t).data = s.data ++ t.data := rfl
  rw [hd]
  cases hs : s.data with
  | nil => rw [hs] at h; simp at h
  | cons a rest =>
      rw [hs] at h
      simp at h
      simp [h]

/-- Both branches of an `if` sharing a head character gives the `if` that head
character. -/
theorem head?_ite {y m : String} {c : Char} (b : Bool)
    (hy : y.data.head? = some c) (hm : m.data.head? = some c) :
    (if b then y else m).data.head? = some c := by
  cases b <;> simp [hy, hm]

/-- Unfolding `LocalizableStreamlitException.init` on a successful
construction: the chosen template (catalog translation when it differs from
the class name, otherwise the constructor's literal message) formats to the
instance's message, and the keyword arguments are stored unchanged. -/
theorem init_message_spec {catalog : String → String} {name msg : String}
    {kwargs : List (String × PyVal)} {inst : LocalizableStreamlitException}
    (h : LocalizableStreamlitException.init catalog name msg kwargs = some inst) :
    pyFormat (if catalog name = name then msg else catalog name) (renderKwargs kwargs)
      = some inst.message ∧ inst.exec_kwargs = kwargs := by
  simp only [LocalizableStreamlitException.init] at h
  rcases Option.map_eq_some'.mp h with ⟨m, hm, rfl⟩
  exact ⟨hm, rfl⟩

/-- A successful scan step on an ordinary character produces a message that
starts with that character, hence is nonempty. -/
theorem pyFmtGo_scan_cons_ne_empty {lookup : List (String × String)} {fuel : Nat}
    {c : Char} {rest : List Char} {s : String}
    (h1 : c ≠ '{') (h2 : c ≠ '}')
    (h : pyFmtGo lookup (fuel + 1) .scan (c :: rest) = some s) : s ≠ "" := by
  simp only [pyFmtGo, if_neg h1, if_neg h2] at h
  rcases Option.map_eq_some'.mp h with ⟨t, ht, rfl⟩
  exact append_ne_empty_left t (singleton_ne_empty c)

/-- A template whose first character is ordinary formats, when it succeeds, to
a nonempty message. -/
theorem pyFormat_ne_empty {lookup : List (String × String)} {t : String}
    {s : String} {c : Char}
    (hc : t.data.head? = some c) (h1 : c ≠ '{') (h2 : c ≠ '}')
    (h : pyFormat t lookup = some s) : s ≠ "" := by
  unfold pyFormat at h
  cases ht : t.data with
  | nil => rw [ht] at hc; simp at hc
  | cons a rest =>
      rw [ht] at h hc
      simp at hc
      subst hc
      rw [List.length_cons] at h
      exact pyFmtGo_scan_cons_ne_empty h1 h2 h

/-- Constructing a localizable instance with the null catalog and a template
whose first character is ordinary yields a nonempty message. -/
theorem init_nonempty {name msg : String} {kwargs : List (String × PyVal)}
    {c : Char} {inst : LocalizableStreamlitException}
    (hc : msg.data.head? = some c) (h1 : c ≠ '{') (h2 : c ≠ '}')
    (h : LocalizableStreamlitException.init id name msg kwargs = some inst) :
    inst.message ≠ "" := by
  have hspec := (init_message_spec h).1
  rw [id_eq, if_pos rfl] at hspec
  exact pyFormat_ne_empty hc h1 h2 hspec

/-- With an empty substitution mapping, a replacement field can never be
completed: the field state always fails. -/
theorem pyFmtGo_field_empty_lookup (fuel : Nat) :
    ∀ (acc : String) (l : List Char),
      pyFmtGo [] fuel (.field acc) l = Option.none := by
  induction fuel with
  | zero => intro acc l; rfl
  | succ n ih =>
      intro acc l
      match l with
      | [] => rfl
      | c :: rest =>
          by_cases hc : c = '}'
          · subst hc
            simp [pyFmtGo, lookupAssoc]
          · simp [pyFmtGo, hc, ih]

/-- With an empty substitution mapping, a successful format of a nonempty
template is nonempty. -/
theorem pyFmtGo_scan_empty_lookup_ne_empty {fuel : Nat} {l : List Char} {s : String}
    (hl : l ≠ []) (h : pyFmtGo [] (fuel + 1) .scan l = some s) : s ≠ "" := by
  match l with
  | [] => exact absurd rfl hl
  | c :: rest =>
      by_cases hc : c = '{'
      · subst hc
        match rest with
        | [] => simp [pyFmtGo] at h
        | c2 :: rest2 =>
            by_cases hc2 : c2 = '{'
            · subst hc2
              simp only [pyFmtGo, if_pos rfl] at h
              rcases Option.map_eq_some'.mp h with ⟨t, ht, rfl⟩
              exact append_ne_empty_left t (by intro he; simpa using congrArg String.data he)
            · simp only [pyFmtGo, if_pos rfl, if_neg hc2] at h
              rw [pyFmtGo_field_empty_lookup] at h
              exact absurd h (by simp)
      · by_cases hc' : c = '}'
        · subst hc'
          match rest with
          | [] => simp [pyFmtGo, hc] at h
          | c2 :: rest2 =>
              by_cases hc2 : c2 = '}'
              · subst hc2
                simp only [pyFmtGo, if_neg hc, if_pos rfl] at h
                rcases Option.map_eq_some'.mp h with ⟨t, ht, rfl⟩
                exact append_ne_empty_left t (by intro he; simpa using congrArg String.data he)
              · simp [pyFmtGo, hc, hc2] at h
        · exact pyFmtGo_scan_cons_ne_empty hc hc' h

/-- If the substitution mapping lacks a field name the template references,
formatting fails (models `str.format` raising `KeyError`). -/
theorem pyFmtGo_missing {lookup : List (String × String)} {p : String}
    (hp : lookupAssoc lookup p = Option.none) :
    ∀ (fuel : Nat) (st : FmtState) (l : List Char),
      p ∈ pyRefsGo fuel st l → pyFmtGo lookup fuel st l = Option.none := by
  intro fuel
  induction fuel with
  | zero => intro st l hm; rfl
  | succ n ih =>
      intro st l hm
      match st, l with
      | .scan, [] => simp [pyRefsGo] at hm
      | .scan, c :: rest =>
          by_cases hc : c = '{'
          · subst hc
            match rest with
            | [] => simp [pyRefsGo] at hm
            | c2 :: rest2 =>
                by_cases hc2 : c2 = '{'
                · subst hc2
                  simp only [pyRefsGo, if_pos rfl] at hm
                  simp only [pyFmtGo, if_pos rfl]
                  rw [ih _ _ hm]
                  rfl
                · simp only [pyRefsGo, if_pos rfl, if_neg hc2] at hm
                  simp only [pyFmtGo, if_pos rfl, if_neg hc2]
                  exact ih _ _ hm
          · by_cases hc' : c = '}'
            · subst hc'
              match rest with
              | [] => simp [pyRefsGo, hc] at hm
              | c2 :: rest2 =>
                  by_cases hc2 : c2 = '}'
                  · subst hc2
                    simp only [pyRefsGo, if_neg hc, if_pos rfl] at hm
                    simp only [pyFmtGo, if_neg hc, if_pos rfl]
                    rw [ih _ _ hm]
                    rfl
                  · simp [pyRefsGo, hc, hc2] at hm
            · simp only [pyRefsGo, if_neg hc, if_neg hc'] at hm
              simp only [pyFmtGo, if_neg hc, if_neg hc']
              rw [ih _ _ hm]
              rfl
      | .field acc, [] => simp [pyRefsGo] at hm
      | .field acc, c :: rest =>
          by_cases hc : c = '}'
          · subst hc
            simp only [pyRefsGo, if_pos rfl, List.mem_cons] at hm
            simp only [pyFmtGo, if_pos rfl]
            cases hm with
            | head =>
                rw [hp]
                simp
            | tail _ hmem =>
                cases hacc : lookupAssoc lookup acc with
                | none => rfl
                | some v =>
                    rw [ih _ _ hmem]
                    rfl
          · simp only [pyRefsGo, if_neg hc] at hm
            simp only [pyFmtGo, if_neg hc]
            exact ih _ _ hm

/-- Two successful constructions from the same option value carry the same
message. -/
theorem some_message_eq {o : Option LocalizableStreamlitException}
    {i1 i2 : LocalizableStreamlitException}
    (h1 : o = some i1) (h2 : o = some i2) : i1.message = i2.message := by
  rw [h1] at h2
  injection h2 with h
  rw [h]

/-- The template choice as the specification words it: use the catalog result
exactly when it differs from the lookup key, otherwise the fallback template
supplied by the leaf constructor. -/
def chosenTemplateSpec (catalog : String → String) (leafName fallback : String) : String :=
  if catalog leafName ≠ leafName then catalog leafName else fallback

/-- C1: a localizable instance's message is produced by keying the catalog
with the concrete leaf class's name, using the catalog result as template
exactly when it differs from the key and the constructor's literal template
otherwise, and substituting the keyword arguments into the chosen template.
Moreover the leaf class names are pairwise distinct and none of them equals
the base class name, so the key always identifies the concrete leaf. -/
theorem localizable_message_pipeline :
    (∀ (catalog : String → String) (name fallback : String)
        (kwargs : List (String × PyVal)),
      LocalizableStreamlitException.init catalog name fallback kwargs =
        (pyFormat (chosenTemplateSpec catalog name fallback) (renderKwargs kwargs)).map
          (fun m => { message := m, exec_kwargs := kwargs }))
    ∧ (localizableLeaves.map className).Nodup
    ∧ (localizableLeaves.all
        (fun c => className c != className PyClass.LocalizableStreamlitException)) = true := by
  refine ⟨?_, by decide, by decide⟩
  intro catalog name fallback kwargs
  simp only [LocalizableStreamlitException.init, chosenTemplateSpec]
  by_cases h : catalog name = name
  · simp [h]
  · simp [h]

/-- C2: at `value=0, min_value=5, max_value=None, step=None` the code's
truthiness check `if value:` skips the zero value, so the rendered message
contains only the `min_value` line and never mentions the type of `value`
(the claim and the specification require the `value` line to be present). -/
theorem number_input_zero_value_omitted :
    StreamlitNumberInputDifferentTypesError.init id (PyVal.int 0) (PyVal.int 5)
        PyVal.none PyVal.none =
      some { message := "All numerical arguments must be of the same type.\n`min_value` has int type.",
             exec_kwargs := [] }
    ∧ ¬ List.IsInfix ("`value`").data
        ("All numerical arguments must be of the same type.\n`min_value` has int type.").data := by
  refine ⟨by decide, by decide⟩

/-- C3: the keyword arguments read back through `exec_kwargs` after a
successful construction are exactly the keyword arguments passed to the
constructor, for any catalog (translated or fallback template alike). -/
theorem exec_kwargs_roundtrip (catalog : String → String) (name msg : String)
    (kwargs : List (String × PyVal)) (inst : LocalizableStreamlitException)
    (h : LocalizableStreamlitException.init catalog name msg kwargs = some inst) :
    inst.exec_kwargs = kwargs :=
  (init_message_spec h).2

/-- Witness for C3 at a concrete construction. -/
theorem exec_kwargs_roundtrip_witness :
    ({ message := "hi 7", exec_kwargs := [("a", PyVal.int 7)] } :
      LocalizableStreamlitException).exec_kwargs = [("a", PyVal.int 7)] :=
  exec_kwargs_roundtrip id ("SomeError") ("hi {a}") [("a", PyVal.int 7)]
    { message := "hi 7", exec_kwargs := [("a", PyVal.int 7)] } (by decide)

/-- C4 counterexample: with no translation, `value=1, min_value=5,
max_value=10` renders exactly the backticked message, which is not the
plain string the claim states. -/
theorem invalid_max_value_exact_message_counterexample :
    (StreamlitNumberInputInvalidMaxValueError.init id (PyVal.int 1) (PyVal.int 5)
        (PyVal.int 10)).map LocalizableStreamlitException.message =
      some ("The `value` 1 is less than the `min_value` 5.")
    ∧ ("The `value` 1 is less than the `min_value` 5." : String) ≠
        "The value 1 is less than the min_value 5." := by
  refine ⟨by decide, by decide⟩

/-- C4 amended: the construction yields exactly the backticked message
(and stores `value` and `min_value` as substitution arguments; `max_value`
is accepted but not substituted). -/
theorem invalid_max_value_message_backticked :
    StreamlitNumberInputInvalidMaxValueError.init id (PyVal.int 1) (PyVal.int 5)
        (PyVal.int 10) =
      some { message := "The `value` 1 is less than the `min_value` 5.",
             exec_kwargs := [("value", PyVal.int 1), ("min_value", PyVal.int 5)] } := by
  decide

/-- C5: if the chosen template references a replacement field that is not
among the supplied keyword arguments, construction fails (formatting aborts)
rather than producing an instance. -/
theorem init_fails_on_missing_placeholder (catalog : String → String)
    (name msg : String) (kwargs : List (String × PyVal)) (p : String)
    (hmem : p ∈ templateRefs (if catalog name = name then msg else catalog name))
    (hmiss : lookupAssoc (renderKwargs kwargs) p = Option.none) :
    LocalizableStreamlitException.init catalog name msg kwargs = Option.none := by
  simp only [LocalizableStreamlitException.init, pyFormat]
  rw [templateRefs] at hmem
  rw [pyFmtGo_missing hmiss _ _ _ hmem]
  rfl

/-- Witness for C5: a template with an unknown field and no keyword
arguments fails to construct. -/
theorem init_fails_on_missing_placeholder_witness :
    LocalizableStreamlitException.init id ("StreamlitJSNumberBoundsError")
      ("oops {missing}") [] = Option.none :=
  init_fails_on_missing_placeholder id ("StreamlitJSNumberBoundsError")
    ("oops {missing}") [] ("missing") (by decide) (by decide)

/-- C6: for every leaf category, two instances constructed independently with
identical constructor arguments under the same catalog state have identical
rendered messages. -/
theorem leaf_message_determinism :
    (∀ (catalog : String → String) (value min_value max_value step : PyVal)
        (i1 i2 : LocalizableStreamlitException),
      StreamlitNumberInputDifferentTypesError.init catalog value min_value max_value step = some i1 →
      StreamlitNumberInputDifferentTypesError.init catalog value min_value max_value step = some i2 →
      i1.message = i2.message)
    ∧ (∀ (catalog : String → String) (value max_value : PyVal)
        (i1 i2 : LocalizableStreamlitException),
      StreamlitNumberInputInvalidMinValueError.init catalog value max_value = some i1 →
      StreamlitNumberInputInvalidMinValueError.init catalog value max_value = some i2 →
      i1.message = i2.message)
    ∧ (∀ (catalog : String → String) (value min_value max_value : PyVal)
        (i1 i2 : LocalizableStreamlitException),
      StreamlitNumberInputInvalidMaxValueError.init catalog value min_value max_value = some i1 →
      StreamlitNumberInputInvalidMaxValueError.init catalog value min_value max_value = some i2 →
      i1.message = i2.message)
    ∧ (∀ (catalog : String → String) (message : String)
        (i1 i2 : LocalizableStreamlitException),
      StreamlitJSNumberBoundsError.init catalog message = some i1 →
      StreamlitJSNumberBoundsError.init catalog message = some i2 →
      i1.message = i2.message)
    ∧ (∀ (catalog : String → String) (format : String)
        (i1 i2 : LocalizableStreamlitException),
      StreamlitNumberInputInvalidFormatError.init catalog format = some i1 →
      StreamlitNumberInputInvalidFormatError.init catalog format = some i2 →
      i1.message = i2.message)
    ∧ (∀ (catalog : String → String) (i1 i2 : LocalizableStreamlitException),
      StreamlitMissingPageLabelError.init catalog = some i1 →
      StreamlitMissingPageLabelError.init catalog = some i2 →
      i1.message = i2.message)
    ∧ (∀ (catalog : String → String) (page main_script_directory : String)
        (i1 i2 : LocalizableStreamlitException),
      StreamlitPageNotFoundError.init catalog page main_script_directory = some i1 →
      StreamlitPageNotFoundError.init catalog page main_script_directory = some i2 →
      i1.message = i2.message)
    ∧ (∀ (catalog : String → String) (page : String)
        (i1 i2 : LocalizableStreamlitException),
      StreamlitPageNotFoundMPAV2Error.init catalog page = some i1 →
      StreamlitPageNotFoundMPAV2Error.init catalog page = some i2 →
      i1.message = i2.message)
    ∧ (∀ (catalog : String → String) (i1 i2 : LocalizableStreamlitException),
      StreamlitFragmentWidgetsNotAllowedOutsideError.init catalog = some i1 →
      StreamlitFragmentWidgetsNotAllowedOutsideError.init catalog = some i2 →
      i1.message = i2.message)
    ∧ (∀ (catalog : String → String) (i1 i2 : LocalizableStreamlitException),
      StreamlitInvalidFormCallbackError.init catalog = some i1 →
      StreamlitInvalidFormCallbackError.init catalog = some i2 →
      i1.message = i2.message)
    ∧ (∀ (catalog : String → String) (key : String)
        (i1 i2 : LocalizableStreamlitException),
      StreamlitWidgetValueAssignmentNotAllowedError.init catalog key = some i1 →
      StreamlitWidgetValueAssignmentNotAllowedError.init catalog key = some i2 →
      i1.message = i2.message)
    ∧ (∀ (catalog : String → String) (current_selections_count max_selections_count : Int)
        (i1 i2 : LocalizableStreamlitException),
      StreamlitSelectionCountExceedsMaxError.init catalog current_selections_count max_selections_count = some i1 →
      StreamlitSelectionCountExceedsMaxError.init catalog current_selections_count max_selections_count = some i2 →
      i1.message = i2.message)
    ∧ (∀ (catalog : String → String) (i1 i2 : LocalizableStreamlitException),
      StreamlitInvalidColumnSpecError.init catalog = some i1 →
      StreamlitInvalidColumnSpecError.init catalog = some i2 →
      i1.message = i2.message)
    ∧ (∀ (catalog : String → String) (i1 i2 : LocalizableStreamlitException),
      StreamlitSetPageConfigMustBeFirstCommandError.init catalog = some i1 →
      StreamlitSetPageConfigMustBeFirstCommandError.init catalog = some i2 →
      i1.message = i2.message)
    ∧ (∀ (catalog : String → String) (layout : String)
        (i1 i2 : LocalizableStreamlitException),
      StreamlitInvalidLayoutError.init catalog layout = some i1 →
      StreamlitInvalidLayoutError.init catalog layout = some i2 →
      i1.message = i2.message)
    ∧ (∀ (catalog : String → String) (initial_sidebar_state : String)
        (i1 i2 : LocalizableStreamlitException),
      StreamlitInvalidSidebarStateError.init catalog initial_sidebar_state = some i1 →
      StreamlitInvalidSidebarStateError.init catalog initial_sidebar_state = some i2 →
      i1.message = i2.message)
    ∧ (∀ (catalog : String → String) (key : String)
        (i1 i2 : LocalizableStreamlitException),
      StreamlitInvalidMenuItemKeyError.init catalog key = some i1 →
      StreamlitInvalidMenuItemKeyError.init catalog key = some i2 →
      i1.message = i2.message)
    ∧ (∀ (catalog : String → String) (url : String)
        (i1 i2 : LocalizableStreamlitException),
      StreamlitInvalidURLError.init catalog url = some i1 →
      StreamlitInvalidURLError.init catalog url = some i2 →
      i1.message = i2.message) := by
  refine ⟨?_, ?_, ?_, ?_, ?_, ?_, ?_, ?_, ?_, ?_, ?_, ?_, ?_, ?_, ?_, ?_, ?_, ?_⟩ <;>
    (intros; apply some_message_eq <;> assumption)

/-- Witness for C6 at a concrete construction (no-label page-link error,
null catalog). -/
theorem leaf_message_determinism_witness :
    ({ message := "The `label` param is required for external links used with `st.page_link` - please provide a `label`.",
       exec_kwargs := [] } : LocalizableStreamlitException).message =
      ({ message := "The `label` param is required for external links used with `st.page_link` - please provide a `label`.",
         exec_kwargs := [] } : LocalizableStreamlitException).message :=
  leaf_message_determinism.2.2.2.2.2.1 id
    { message := "The `label` param is required for external links used with `st.page_link` - please provide a `label`.",
      exec_kwargs := [] }
    { message := "The `label` param is required for external links used with `st.page_link` - please provide a `label`.",
      exec_kwargs := [] }
    (by decide) (by decide)

/-- C7: every localizable leaf is a subclass of
`LocalizableStreamlitException`, which is a subclass of
`StreamlitAPIException`, which is a subclass of
`MarkdownFormattedException`, which is a subclass of `Error`; hence every
leaf is caught by a handler for any of these bases. -/
theorem taxonomy_subclass_chain :
    (localizableLeaves.all
      (fun c => isSubclass c PyClass.LocalizableStreamlitException)) = true
    ∧ isSubclass PyClass.LocalizableStreamlitException PyClass.StreamlitAPIException = true
    ∧ isSubclass PyClass.StreamlitAPIException PyClass.MarkdownFormattedException = true
    ∧ isSubclass PyClass.MarkdownFormattedException PyClass.Error = true
    ∧ (localizableLeaves.all
        (fun c => isSubclass c PyClass.StreamlitAPIException &&
          isSubclass c PyClass.MarkdownFormattedException &&
          isSubclass c PyClass.Error)) = true := by
  refine ⟨by decide, by decide, by decide, by decide, by decide⟩

/-- C8 counterexample: `StreamlitJSNumberBoundsError` takes its template from
its raising caller, and with the empty string it constructs an instance whose
rendered message is empty, refuting the claim for that leaf. -/
theorem js_bounds_empty_message_counterexample :
    ¬ (∀ inst : LocalizableStreamlitException,
        StreamlitJSNumberBoundsError.init id ("") = some inst →
          inst.message ≠ "") := by
  intro h
  exact h { message := "", exec_kwargs := [] } (by decide) rfl

set_option maxHeartbeats 2000000 in
/-- C8 amended: with no translation installed, every localizable leaf other
than `StreamlitJSNumberBoundsError` yields a nonempty message whenever
construction succeeds (each supplies a template with a nonempty literal
head); for `StreamlitJSNumberBoundsError`, whose template is supplied by its
caller, the message is nonempty whenever the caller's template is nonempty. -/
theorem leaf_messages_nonempty :
    (∀ (value min_value max_value step : PyVal) (inst : LocalizableStreamlitException),
      StreamlitNumberInputDifferentTypesError.init id value min_value max_value step = some inst →
      inst.message ≠ "")
    ∧ (∀ (value max_value : PyVal) (inst : LocalizableStreamlitException),
      StreamlitNumberInputInvalidMinValueError.init id value max_value = some inst →
      inst.message ≠ "")
    ∧ (∀ (value min_value max_value : PyVal) (inst : LocalizableStreamlitException),
      StreamlitNumberInputInvalidMaxValueError.init id value min_value max_value = some inst →
      inst.message ≠ "")
    ∧ (∀ (message : String) (inst : LocalizableStreamlitException),
      message ≠ "" →
      StreamlitJSNumberBoundsError.init id message = some inst →
      inst.message ≠ "")
    ∧ (∀ (format : String) (inst : LocalizableStreamlitException),
      StreamlitNumberInputInvalidFormatError.init id format = some inst →
      inst.message ≠ "")
    ∧ (∀ (inst : LocalizableStreamlitException),
      StreamlitMissingPageLabelError.init id = some inst →
      inst.message ≠ "")
    ∧ (∀ (page main_script_directory : String) (inst : LocalizableStreamlitException),
      StreamlitPageNotFoundError.init id page main_script_directory = some inst →
      inst.message ≠ "")
    ∧ (∀ (page : String) (inst : LocalizableStreamlitException),
      StreamlitPageNotFoundMPAV2Error.init id page = some inst →
      inst.message ≠ "")
    ∧ (∀ (inst : LocalizableStreamlitException),
      StreamlitFragmentWidgetsNotAllowedOutsideError.init id = some inst →
      inst.message ≠ "")
    ∧ (∀ (inst : LocalizableStreamlitException),
      StreamlitInvalidFormCallbackError.init id = some inst →
      inst.message ≠ "")
    ∧ (∀ (key : String) (inst : LocalizableStreamlitException),
      StreamlitWidgetValueAssignmentNotAllowedError.init id key = some inst →
      inst.message ≠ "")
    ∧ (∀ (current_selections_count max_selections_count : Int)
        (inst : LocalizableStreamlitException),
      StreamlitSelectionCountExceedsMaxError.init id current_selections_count max_selections_count = some inst →
      inst.message ≠ "")
    ∧ (∀ (inst : LocalizableStreamlitException),
      StreamlitInvalidColumnSpecError.init id = some inst →
      inst.message ≠ "")
    ∧ (∀ (inst : LocalizableStreamlitException),
      StreamlitSetPageConfigMustBeFirstCommandError.init id = some inst →
      inst.message ≠ "")
    ∧ (∀ (layout : String) (inst : LocalizableStreamlitException),
      StreamlitInvalidLayoutError.init id layout = some inst →
      inst.message ≠ "")
    ∧ (∀ (initial_sidebar_state : String) (inst : LocalizableStreamlitException),
      StreamlitInvalidSidebarStateError.init id initial_sidebar_state = some inst →
      inst.message ≠ "")
    ∧ (∀ (key : String) (inst : LocalizableStreamlitException),
      StreamlitInvalidMenuItemKeyError.init id key = some inst →
      inst.message ≠ "")
    ∧ (∀ (url : String) (inst : LocalizableStreamlitException),
      StreamlitInvalidURLError.init id url = some inst →
      inst.message ≠ "") := by
  refine ⟨?_, ?_, ?_, ?_, ?_, ?_, ?_, ?_, ?_, ?_, ?_, ?_, ?_, ?_, ?_, ?_, ?_, ?_⟩
  · intro v mv Mv st inst h
    unfold StreamlitNumberInputDifferentTypesError.init at h
    have h0 : ("All numerical arguments must be of the same type." : String).data.head? = some 'A' := rfl
    have h1 := head?_ite (v.truthy)
      (data_head?_append (" type.") (data_head?_append (v.typeName)
        (data_head?_append ("\n`value` has ") h0))) h0
    have h2 := head?_ite (mv.truthy)
      (data_head?_append (" type.") (data_head?_append (mv.typeName)
        (data_head?_append ("\n`min_value` has ") h1))) h1
    have h3 := head?_ite (Mv.truthy)
      (data_head?_append (" type.") (data_head?_append (Mv.typeName)
        (data_head?_append ("\n`max_value` has ") h2))) h2
    have h4 := head?_ite (st.truthy)
      (data_head?_append (" type.") (data_head?_append (st.typeName)
        (data_head?_append ("\n`step` has ") h3))) h3
    exact init_nonempty h4 (by decide) (by decide) h
  · intro v Mv inst h
    unfold StreamlitNumberInputInvalidMinValueError.init at h
    have h0 : ("The `value` {value} is greater than the `max_value` {max_value}." : String).data.head? = some 'T' := rfl
    exact init_nonempty h0 (by decide) (by decide) h
  · intro v mv Mv inst h
    unfold StreamlitNumberInputInvalidMaxValueError.init at h
    have h0 : ("The `value` {value} is less than the `min_value` {min_value}." : String).data.head? = some 'T' := rfl
    exact init_nonempty h0 (by decide) (by decide) h
  · intro m inst hm h
    have hspec := (init_message_spec h).1
    rw [id_eq, if_pos rfl] at hspec
    have hl : m.data ≠ [] := fun hd => hm (String.ext (by simp [hd]))
    unfold pyFormat at hspec
    exact pyFmtGo_scan_empty_lookup_ne_empty hl hspec
  · intro f inst h
    unfold StreamlitNumberInputInvalidFormatError.init at h
    have h0 : ("Format string for st.number_input contains invalid characters: " : String).data.head? = some 'F' := rfl
    exact init_nonempty (data_head?_append f h0) (by decide) (by decide) h
  · intro inst h
    unfold StreamlitMissingPageLabelError.init at h
    have h0 : ("The `label` param is required for external links used with `st.page_link` - please provide a `label`." : String).data.head? = some 'T' := rfl
    exact init_nonempty h0 (by decide) (by decide) h
  · intro page d inst h
    unfold StreamlitPageNotFoundError.init at h
    have h0 : ("Could not find page: `" : String).data.head? = some 'C' := rfl
    exact init_nonempty
      (data_head?_append ("Only the entrypoint file and files in the `pages/` directory are supported.")
        (data_head?_append ("`). ")
          (data_head?_append (osPathBasename d)
            (data_head?_append ("relative to the entrypoint file (from the directory `")
              (data_head?_append ("`. You must provide a file path ")
                (data_head?_append page h0))))))
      (by decide) (by decide) h
  · intro page inst h
    unfold StreamlitPageNotFoundMPAV2Error.init at h
    have h0 : ("Could not find page: `" : String).data.head? = some 'C' := rfl
    exact init_nonempty
      (data_head?_append ("`st.navigation` are allowed.")
        (data_head?_append ("previously defined by [st.Page](http://st.page/) and passed to ")
          (data_head?_append ("object or file path relative to the entrypoint file. Only pages ")
            (data_head?_append ("`. You must provide a `StreamlitPage` ")
              (data_head?_append page h0)))))
      (by decide) (by decide) h
  · intro inst h
    unfold StreamlitFragmentWidgetsNotAllowedOutsideError.init at h
    have h0 : (" Fragments cannot write widgets to outside containers." : String).data.head? = some ' ' := rfl
    exact init_nonempty h0 (by decide) (by decide) h
  · intro inst h
    unfold StreamlitInvalidFormCallbackError.init at h
    have h0 : ("Within a form, callbacks can only be defined on st.form_submit_button. " : String).data.head? = some 'W' := rfl
    exact init_nonempty
      (data_head?_append ("Defining callbacks on other widgets inside a form is not allowed.") h0)
      (by decide) (by decide) h
  · intro key inst h
    unfold StreamlitWidgetValueAssignmentNotAllowedError.init at h
    have h0 : ("Values for the widget with `key` \x27" : String).data.head? = some 'V' := rfl
    exact init_nonempty
      (data_head?_append ("\x27 cannot be set using `st.session_state`.")
        (data_head?_append key h0))
      (by decide) (by decide) h
  · intro cnt mx inst h
    unfold StreamlitSelectionCountExceedsMaxError.init at h
    have h0 : ("Multiselect has " : String).data.head? = some 'M' := rfl
    exact init_nonempty
      (data_head?_append (".")
        (data_head?_append (if mx = 1 then ("option" : String) else "options")
          (data_head?_append (" ")
            (data_head?_append (toString mx)
              (data_head?_append ("Please select at most ")
                (data_head?_append ("Note that the latter can happen before the line indicated in the traceback. ")
                  (data_head?_append ("or you manipulated the widget\x27s state through `st.session_state`. ")
                    (data_head?_append ("This happened because you either gave too many options to `default` ")
                      (data_head?_append (". ")
                        (data_head?_append (toString mx)
                          (data_head?_append ("selected but `max_selections` is set to ")
                            (data_head?_append (" ")
                              (data_head?_append (if cnt = 1 then ("selection" : String) else "selections")
                                (data_head?_append (" ")
                                  (data_head?_append (toString cnt) h0)))))))))))))))
      (by decide) (by decide) h
  · intro inst h
    unfold StreamlitInvalidColumnSpecError.init at h
    have h0 : ("The spec argument to `st.columns` must be either a " : String).data.head? = some 'T' := rfl
    exact init_nonempty
      (data_head?_append ("for more information.")
        (data_head?_append ("See [documentation](https://docs.streamlit.io/develop/api-reference/layout/st.columns) ")
          (data_head?_append ("positive integer (number of columns) or a list of positive numbers (width ratios of the columns). ") h0)))
      (by decide) (by decide) h
  · intro inst h
    unfold StreamlitSetPageConfigMustBeFirstCommandError.init at h
    have h0 : ("`set_page_config()` can only be called once per app page, " : String).data.head? = some (Char.ofNat 96) := rfl
    exact init_nonempty
      (data_head?_append ("(https://docs.streamlit.io/develop/api-reference/configuration/st.set_page_config).")
        (data_head?_append ("For more information refer to the [docs]")
          (data_head?_append ("and must be called as the first Streamlit command in your script.\n\n") h0)))
      (by decide) (by decide) h
  · intro layout inst h
    unfold StreamlitInvalidLayoutError.init at h
    have h0 : ("layout must be \"centered\" or \"wide\" (got \"" : String).data.head? = some 'l' := rfl
    exact init_nonempty
      (data_head?_append ("\")") (data_head?_append layout h0))
      (by decide) (by decide) h
  · intro s inst h
    unfold StreamlitInvalidSidebarStateError.init at h
    have h0 : ("initial_sidebar_state must be \"auto\" or \"expanded\" or \"collapsed\" (got \"" : String).data.head? = some 'i' := rfl
    exact init_nonempty
      (data_head?_append ("\")") (data_head?_append s h0))
      (by decide) (by decide) h
  · intro key inst h
    unfold StreamlitInvalidMenuItemKeyError.init at h
    have h0 : ("We only accept the keys: \"Get help\", \"Report a bug\", and \"About\" (\"" : String).data.head? = some 'W' := rfl
    exact init_nonempty
      (data_head?_append ("\" is not a valid key.)") (data_head?_append key h0))
      (by decide) (by decide) h
  · intro url inst h
    unfold StreamlitInvalidURLError.init at h
    have h0 : ("\"" : String).data.head? = some (Char.ofNat 34) := rfl
    exact init_nonempty
      (data_head?_append ("You must use a fully qualified domain beginning with `http://`, `https://`, or `mailto:`.")
        (data_head?_append ("\" is a not a valid URL. ")
          (data_head?_append url h0)))
      (by decide) (by decide) h

/-- Witness for C8 at a concrete construction (all four numeric arguments
truthy). -/
theorem leaf_messages_nonempty_witness :
    ({ message := "All numerical arguments must be of the same type.\n`value` has int type.\n`min_value` has int type.\n`max_value` has int type.\n`step` has int type.",
       exec_kwargs := [] } : LocalizableStreamlitException).message ≠ "" :=
  leaf_messages_nonempty.1 (PyVal.int 1) (PyVal.int 2) (PyVal.int 3) (PyVal.int 4)
    { message := "All numerical arguments must be of the same type.\n`value` has int type.\n`min_value` has int type.\n`max_value` has int type.\n`step` has int type.",
      exec_kwargs := [] }
    (by decide)

/-- C9: `FragmentHandledException` derives only from the built-in
`Exception`, not from `Error`, `MarkdownFormattedException` or
`LocalizableStreamlitException`, so catching those bases does not catch it. -/
theorem fragment_handled_outside_taxonomy :
    isSubclass PyClass.FragmentHandledException PyClass.Error = false
    ∧ isSubclass PyClass.FragmentHandledException PyClass.MarkdownFormattedException = false
    ∧ isSubclass PyClass.FragmentHandledException PyClass.LocalizableStreamlitException = false
    ∧ isSubclass PyClass.FragmentHandledException PyClass.PyException = true := by
  refine ⟨by decide, by decide, by decide, by decide⟩

/-- C10: `FragmentStorageKeyError` is a subclass of both the framework base
`Error` and the built-in `KeyError`, so a plain `KeyError` handler also
catches this framework error. -/
theorem fragment_storage_key_error_dual_catch :
    isSubclass PyClass.FragmentStorageKeyError PyClass.Error = true
    ∧ isSubclass PyClass.FragmentStorageKeyError PyClass.PyKeyError = true := by
  refine ⟨by decide, by decide⟩

end StreamlitErrors
